import Mathlib

/-!
Shallow embedding of the accel-one-shot repository: a three-axis devicemotion
integrator and a one-dimensional magnitude variant (`src/main.js`, two scripts),
and an analytic capture-then-run simulator (`src/unnamed/part_000`).

JavaScript number arithmetic is modelled exactly over `ℚ`; a JavaScript `null`
or `NaN` value is modelled as `Option.none` where the scripts test for it.
Components of an acceleration reading that are `null` coerce to `0` in every
arithmetic context the scripts use them in, which the embedding reflects with
`Option.getD 0`.
-/

/-- one acceleration triple as delivered by a devicemotion event; each
component may be `null`. -/
structure MotionReading where
  x : Option ℚ
  y : Option ℚ
  z : Option ℚ
  deriving DecidableEq

/-- a devicemotion event: both the gravity-free and the gravity-inclusive
reading may be absent. -/
structure MotionEvent where
  acceleration : Option MotionReading
  accelerationIncludingGravity : Option MotionReading
  deriving DecidableEq

/-- outcome of invoking a `requestPermission` function: it resolves with a
response string or it throws. -/
inductive PermOutcome where
  | resolved (response : String)
  | errored
  deriving DecidableEq

/-- a sensor capability global (`DeviceMotionEvent` / `DeviceOrientationEvent`):
it may or may not expose a `requestPermission` function. -/
structure CapabilityAPI where
  requestPermission : Option PermOutcome
  deriving DecidableEq

/-- the platform as the scripts observe it: either capability global may be
entirely absent (`undefined`). -/
structure Platform where
  deviceMotion : Option CapabilityAPI
  deviceOrientation : Option CapabilityAPI
  deriving DecidableEq

/-- a rational 3-vector, used for acceleration / velocity / position state. -/
structure Vec3 where
  x : ℚ
  y : ℚ
  z : ℚ
  deriving DecidableEq

namespace Integrator

/-- embedding of `requestMotionPermissionIfNeeded` of the three-axis script
(src/main.js lines 46-60): a missing `DeviceMotionEvent` global returns `true`;
a present `requestPermission` function must resolve to "granted"; a throw
yields `false`; no `requestPermission` function yields `true`. -/
def requestMotionPermissionIfNeeded (pf : Platform) : Bool :=
  match pf.deviceMotion with
  | none => true
  | some dme =>
    match dme.requestPermission with
    | none => true
    | some (PermOutcome.resolved r) => r == "granted"
    | some PermOutcome.errored => false

/-- observable outcome of the three-axis script's start click handler
(src/main.js lines 287-307). -/
structure StartResult where
  status : String
  running : Bool
  attachedListener : Bool
  deriving DecidableEq

/-- embedding of the start click handler (src/main.js lines 287-307): on a
denied permission it reports and stays idle; otherwise it marks running and
attaches the devicemotion listener (once per page lifetime). -/
def startAction (pf : Platform) (alreadyAttached : Bool) : StartResult :=
  if requestMotionPermissionIfNeeded pf then
    { status := "running", running := true, attachedListener := !alreadyAttached }
  else
    { status := "permission denied", running := false, attachedListener := false }

/-- the guard `e.acceleration && e.acceleration.x != null` (src/main.js
lines 109 and 113). -/
def hasReading : Option MotionReading → Bool
  | some r => r.x.isSome
  | none => false

/-- read the three components of a reading, `null` components coercing to 0. -/
def readingVec (r : MotionReading) : Vec3 :=
  { x := r.x.getD 0, y := r.y.getD 0, z := r.z.getD 0 }

/-- the low-pass coefficient `alpha = 0.92` (src/main.js line 120). -/
def alpha : ℚ := 92 / 100

/-- embedding of src/main.js lines 106-130: prefer the gravity-free reading;
otherwise update the low-pass gravity estimate from the gravity-inclusive
reading and subtract it; if neither reading is usable, report `none`.
Returns the derived acceleration together with the (possibly updated)
gravity estimate. -/
def deriveAccel (e : MotionEvent) (gLP : Vec3) : Option (Vec3 × Vec3) :=
  if hasReading e.acceleration then
    some (readingVec (e.acceleration.getD { x := none, y := none, z := none }), gLP)
  else if hasReading e.accelerationIncludingGravity then
    let aig := readingVec (e.accelerationIncludingGravity.getD { x := none, y := none, z := none })
    let g : Vec3 :=
      { x := alpha * gLP.x + (1 - alpha) * aig.x,
        y := alpha * gLP.y + (1 - alpha) * aig.y,
        z := alpha * gLP.z + (1 - alpha) * aig.z }
    some ({ x := aig.x - g.x, y := aig.y - g.y, z := aig.z - g.z }, g)
  else none

/-- a rolling-buffer record of src/main.js line 22: timestamp plus per-axis
acceleration, velocity and position. -/
structure Sample where
  t : ℚ
  a : Vec3
  v : Vec3
  p : Vec3
  deriving DecidableEq

/-- embedding of `clampWindow` (src/main.js lines 81-88): with `tNow` the last
sample's timestamp (or the current wall clock `tFallback` when the buffer is
empty), drop from the front while the head is older than `tNow - w - 0.5`. -/
def clampWindow (w tFallback : ℚ) (samples : List Sample) : List Sample :=
  let tNow := (samples.getLast?.map Sample.t).getD tFallback
  let tMin := tNow - w
  samples.dropWhile (fun s => decide (s.t < tMin - 1/2))

/-- mutable state of the three-axis script (src/main.js lines 19-31). -/
structure IntegratorState where
  running : Bool
  lastT : Option ℚ
  samples : List Sample
  v : Vec3
  p : Vec3
  lastA : Vec3
  gLP : Vec3
  deriving DecidableEq

/-- the accepted-event tail of `handleMotion` (src/main.js lines 132-152):
trapezoidal integration per axis, then append a sample and trim the buffer.
The state passed in already carries the updated `lastT`. -/
def integrateAccepted (w t dt : ℚ) (a g : Vec3) (s : IntegratorState) : IntegratorState :=
  let v : Vec3 :=
    { x := s.v.x + 1/2 * (s.lastA.x + a.x) * dt,
      y := s.v.y + 1/2 * (s.lastA.y + a.y) * dt,
      z := s.v.z + 1/2 * (s.lastA.z + a.z) * dt }
  let p : Vec3 :=
    { x := s.p.x + v.x * dt, y := s.p.y + v.y * dt, z := s.p.z + v.z * dt }
  { s with
      v := v
      p := p
      lastA := a
      gLP := g
      samples := clampWindow w t (s.samples ++ [{ t := t, a := a, v := v, p := p }]) }

/-- embedding of `handleMotion` (src/main.js lines 90-162), with `t` the wall
clock `nowSec()` at event delivery and `w` the live window-length setting.
Drawing and text-readout effects are outside the model. -/
def handleMotion (w : ℚ) (e : MotionEvent) (t : ℚ) (s : IntegratorState) : IntegratorState :=
  if s.running then
    match s.lastT with
    | none => { s with lastT := some t }
    | some tPrev =>
      let dt := t - tPrev
      if dt ≤ 0 ∨ 1/5 < dt then { s with lastT := some t }
      else
        match deriveAccel e s.gLP with
        | none => { s with lastT := some t }
        | some (a, g) => integrateAccepted w t dt a g { s with lastT := some t }
  else s

end Integrator

namespace Magnitude

/-- a rolling-buffer record of the one-dimensional script (src/main.js
line 439): timestamp, magnitude, velocity, position. -/
structure Sample where
  t : ℚ
  a : ℚ
  v : ℚ
  p : ℚ
  deriving DecidableEq

/-- embedding of `clampWindow` of the one-dimensional script (src/main.js
lines 386-391), textually identical to the three-axis one. -/
def clampWindow (w tFallback : ℚ) (samples : List Sample) : List Sample :=
  let tNow := (samples.getLast?.map Sample.t).getD tFallback
  let tMin := tNow - w
  samples.dropWhile (fun s => decide (s.t < tMin - 1/2))

/-- mutable state of the one-dimensional script (src/main.js lines 339-349). -/
structure MagState where
  running : Bool
  lastT : Option ℚ
  samples : List Sample
  v : ℚ
  p : ℚ
  lastA : ℚ
  gLP : Vec3
  deriving DecidableEq

/-- the accepted-event tail of the one-dimensional `handleMotion` (src/main.js
lines 432-440): the scalar magnitude, trapezoidal integration, sample append
and trim. `mag3` abstracts `Math.sqrt(ax*ax + ay*ay + az*az)` (line 393),
whose square root has no exact rational counterpart; every property proved
about this handler holds for all choices of `mag3`. The state passed in
already carries the updated `lastT` (line 405). -/
def integrateAccepted (mag3 : ℚ → ℚ → ℚ → ℚ) (w t dt : ℚ) (a g : Vec3)
    (s : MagState) : MagState :=
  let aMag := mag3 a.x a.y a.z
  let v := s.v + 1/2 * (s.lastA + aMag) * dt
  let p := s.p + v * dt
  { s with
      v := v
      p := p
      lastA := aMag
      gLP := g
      samples := clampWindow w t (s.samples ++ [{ t := t, a := aMag, v := v, p := p }]) }

/-- embedding of `handleMotion` of the one-dimensional script (src/main.js
lines 397-448). The acceleration-derivation block (lines 407-430) is verbatim
the three-axis one, so `Integrator.deriveAccel` is reused; `lastT = t`
(line 405) precedes the derivation, as in the three-axis script. -/
def handleMotion (mag3 : ℚ → ℚ → ℚ → ℚ) (w : ℚ) (e : MotionEvent) (t : ℚ)
    (s : MagState) : MagState :=
  if s.running then
    match s.lastT with
    | none => { s with lastT := some t }
    | some tPrev =>
      let dt := t - tPrev
      if dt ≤ 0 ∨ 1/5 < dt then { s with lastT := some t }
      else
        match Integrator.deriveAccel e s.gLP with
        | none => { s with lastT := some t }
        | some (a, g) => integrateAccepted mag3 w t dt a g { s with lastT := some t }
  else s

end Magnitude

namespace Analytic

/-- embedding of `clamp` (src/unnamed/part_000 line 8):
`Math.max(lo, Math.min(hi, x))`. -/
def clamp (x lo hi : ℚ) : ℚ := max lo (min hi x)

/-- embedding of `mean` (src/unnamed/part_000 lines 11-16): `none` models the
`NaN` returned for an empty list. -/
def mean (arr : List ℚ) : Option ℚ :=
  if arr.isEmpty then none else some (arr.sum / arr.length)

/-- the user-selected capture axis. -/
inductive Axis where
  | x | y | z
  deriving DecidableEq

/-- component selection of the capture handler (src/unnamed/part_000
lines 140-143): `a.x ?? 0` for the chosen axis. -/
def axisComponent (axis : Axis) (a : MotionReading) : ℚ :=
  match axis with
  | Axis.x => a.x.getD 0
  | Axis.y => a.y.getD 0
  | Axis.z => a.z.getD 0

/-- reading selection of the capture handler (src/unnamed/part_000 line 137):
`ev.accelerationIncludingGravity || ev.acceleration`. -/
def eventReading (ev : MotionEvent) : Option MotionReading :=
  ev.accelerationIncludingGravity.orElse (fun _ => ev.acceleration)

/-- the value appended per capture event (src/unnamed/part_000 lines 140-149):
select the axis component, take its absolute value, clip into [0, 50]. -/
def captureSampleValue (axis : Axis) (a : MotionReading) : ℚ :=
  clamp |axisComponent axis a| 0 50

/-- one step of the capture handler's sample collection (src/unnamed/part_000
lines 136-151): an event with no reading at all is ignored. -/
def captureStep (axis : Axis) (ev : MotionEvent) (samples : List ℚ) : List ℚ :=
  match eventReading ev with
  | none => samples
  | some a => samples ++ [captureSampleValue axis a]

/-- the constant-acceleration computation at the close of the capture window
(src/unnamed/part_000 lines 156-161): a non-finite mean (empty capture) is
replaced by 0, otherwise `a0 = gain * mean`. -/
def captureFinishA0 (gain : ℚ) (samples : List ℚ) : ℚ :=
  match mean samples with
  | none => 0
  | some m => gain * m

/-- embedding of `Number(el.gain.value) || 1.0` (src/unnamed/part_000
line 130): `parsed = none` models a `NaN` parse; both `NaN` and `0` are falsy
and fall back to 1. -/
def effectiveGain (parsed : Option ℚ) : ℚ :=
  match parsed with
  | none => 1
  | some q => if q = 0 then 1 else q

/-- result of the closed-form kinematics: position and velocity. -/
structure Kin where
  x : ℚ
  v : ℚ
  deriving DecidableEq

/-- embedding of `kinematics` (src/unnamed/part_000 lines 186-190). -/
def kinematics (t a0 x0 v0 : ℚ) : Kin :=
  { v := v0 + a0 * t, x := x0 + v0 * t + 1/2 * a0 * t * t }

/-- the simulator's state machine values (src/unnamed/part_000 lines 45-50). -/
inductive SimState where
  | WAIT | CAPTURING | RUNNING | STOPPED
  deriving DecidableEq

/-- permission result of the analytic simulator (src/unnamed/part_000
lines 91-113): an ok flag plus a reason string. -/
structure PermResult where
  ok : Bool
  reason : String
  deriving DecidableEq

/-- the motion-consent half of the simulator's permission request
(src/unnamed/part_000 lines 104-111), reached after the orientation phase. -/
def motionConsent (pf : Platform) : PermResult :=
  match pf.deviceMotion with
  | some dme =>
    match dme.requestPermission with
    | some (PermOutcome.resolved r) =>
      if r != "granted" then { ok := false, reason := "Motion permission denied" }
      else { ok := true, reason := "" }
    | some PermOutcome.errored => { ok := false, reason := "Motion permission error" }
    | none => { ok := true, reason := "" }
  | none => { ok := true, reason := "" }

/-- embedding of the simulator's `requestMotionPermissionIfNeeded`
(src/unnamed/part_000 lines 86-114): "Sensor unsupported" only when neither
capability global exists; then the orientation phase, then the motion phase. -/
def requestMotionPermissionIfNeeded (pf : Platform) : PermResult :=
  if pf.deviceMotion.isNone && pf.deviceOrientation.isNone then
    { ok := false, reason := "Sensor unsupported" }
  else
    match pf.deviceOrientation with
    | some doe =>
      match doe.requestPermission with
      | some (PermOutcome.resolved r) =>
        if r != "granted" then { ok := false, reason := "Orientation permission denied" }
        else motionConsent pf
      | some PermOutcome.errored => { ok := false, reason := "Orientation permission error" }
      | none => motionConsent pf
    | none => motionConsent pf

/-- observable outcome of the simulator's start click handler
(src/unnamed/part_000 lines 351-373): the state reached and whether a
devicemotion capture listener was attached. -/
def startAction (pf : Platform) : SimState × Bool :=
  if (requestMotionPermissionIfNeeded pf).ok then (SimState.CAPTURING, true)
  else (SimState.WAIT, false)

/-- the simulator's mutable record (src/unnamed/part_000 lines 52-73), with
`listening` modelling whether `motionHandler` is currently attached. -/
structure Sim where
  state : SimState
  a0 : ℚ
  x0 : ℚ
  v0 : ℚ
  t0_wall : ℚ
  t_stop : ℚ
  listening : Bool
  deriving DecidableEq

/-- embedding of the stop click handler (src/unnamed/part_000 lines 375-384),
with `now` the wall clock at the click. -/
def stopAction (now : ℚ) (s : Sim) : Sim :=
  if s.state = SimState.CAPTURING then
    { s with listening := false, state := SimState.STOPPED }
  else if s.state ≠ SimState.RUNNING then s
  else { s with t_stop := now - s.t0_wall, state := SimState.STOPPED }

end Analytic

/-- closed-form velocity as the spec states it: `velocity(t) = v0 + a0 * t`. -/
def closedFormVelocity (t a0 v0 : ℚ) : ℚ := v0 + a0 * t

/-- closed-form position as the spec states it:
`position(t) = x0 + v0 * t + 0.5 * a0 * t^2`. -/
def closedFormPosition (t a0 x0 v0 : ℚ) : ℚ := x0 + v0 * t + 1/2 * a0 * t ^ 2

/-! Concrete instances used by witnesses and counterexamples. -/

/-- a devicemotion event carrying no acceleration field at all. -/
def emptyEvent : MotionEvent :=
  { acceleration := none, accelerationIncludingGravity := none }

/-- a devicemotion event with a full gravity-free reading (1, 2, 3). -/
def fullReadingEvent : MotionEvent :=
  { acceleration := some { x := some 1, y := some 2, z := some 3 },
    accelerationIncludingGravity := none }

/-- a running three-axis integrator state with baseline timestamp 0 and all
numeric state zero. -/
def baseIntegratorState : Integrator.IntegratorState :=
  { running := true, lastT := some 0, samples := [], v := ⟨0, 0, 0⟩, p := ⟨0, 0, 0⟩,
    lastA := ⟨0, 0, 0⟩, gLP := ⟨0, 0, 0⟩ }

/-- a running three-axis integrator state whose previous acceleration already
equals the reading of `fullReadingEvent`. -/
def trapState : Integrator.IntegratorState :=
  { running := true, lastT := some 0, samples := [], v := ⟨0, 0, 0⟩, p := ⟨0, 0, 0⟩,
    lastA := ⟨1, 2, 3⟩, gLP := ⟨0, 0, 0⟩ }

/-- a running one-dimensional integrator state with baseline timestamp 0. -/
def baseMagState : Magnitude.MagState :=
  { running := true, lastT := some 0, samples := [], v := 0, p := 0, lastA := 0,
    gLP := ⟨0, 0, 0⟩ }

/-- a simulator record sitting in WAIT. -/
def simWait : Analytic.Sim :=
  { state := Analytic.SimState.WAIT, a0 := 1, x0 := 2, v0 := 3, t0_wall := 4,
    t_stop := 5, listening := false }

/-- a simulator record sitting in CAPTURING with a listener attached. -/
def simCapturing : Analytic.Sim :=
  { state := Analytic.SimState.CAPTURING, a0 := 7, x0 := 0, v0 := 0, t0_wall := 0,
    t_stop := 0, listening := true }

/-- a buffer sample at timestamp 0. -/
def sampA : Integrator.Sample := { t := 0, a := ⟨0, 0, 0⟩, v := ⟨0, 0, 0⟩, p := ⟨0, 0, 0⟩ }

/-- a buffer sample at timestamp 2. -/
def sampB : Integrator.Sample := { t := 2, a := ⟨1, 1, 1⟩, v := ⟨1, 1, 1⟩, p := ⟨1, 1, 1⟩ }

/-- a one-dimensional buffer sample at timestamp 0. -/
def msampA : Magnitude.Sample := { t := 0, a := 0, v := 0, p := 0 }

/-- a one-dimensional buffer sample at timestamp 2. -/
def msampB : Magnitude.Sample := { t := 2, a := 1, v := 1, p := 1 }

/-! Helper lemmas shared by the claim theorems. -/

/-- a running three-axis handler with a timestamp baseline rejects any event
whose spacing is non-positive or above 0.2 s, recording only the new
baseline. -/
theorem Integrator.intHandleMotion_reject (w : ℚ) (e : MotionEvent) (t : ℚ)
    (s : Integrator.IntegratorState) (tPrev : ℚ) (hrun : s.running = true)
    (hlast : s.lastT = some tPrev) (hgate : t - tPrev ≤ 0 ∨ 1/5 < t - tPrev) :
    Integrator.handleMotion w e t s = { s with lastT := some t } := by
  obtain ⟨run, lt, sm, vv, pp, la, gg⟩ := s
  cases hrun
  cases hlast
  simp only [Integrator.handleMotion]
  rw [if_pos trivial, if_pos hgate]

/-- a running three-axis handler with a timestamp baseline accepts any event
whose spacing lies in (0, 0.2], branching on the derived acceleration. -/
theorem Integrator.intHandleMotion_accept (w : ℚ) (e : MotionEvent) (t : ℚ)
    (s : Integrator.IntegratorState) (tPrev : ℚ) (hrun : s.running = true)
    (hlast : s.lastT = some tPrev) (hpos : 0 < t - tPrev) (hle : t - tPrev ≤ 1/5) :
    Integrator.handleMotion w e t s =
      match Integrator.deriveAccel e s.gLP with
      | none => { s with lastT := some t }
      | some (a, g) =>
        Integrator.integrateAccepted w t (t - tPrev) a g { s with lastT := some t } := by
  have hgate : ¬(t - tPrev ≤ 0 ∨ 1/5 < t - tPrev) := by
    push_neg
    exact ⟨hpos, hle⟩
  obtain ⟨run, lt, sm, vv, pp, la, gg⟩ := s
  cases hrun
  cases hlast
  simp only [Integrator.handleMotion]
  rw [if_pos trivial, if_neg hgate]

/-- a running one-dimensional handler with a timestamp baseline rejects any
event whose spacing is non-positive or above 0.2 s, recording only the new
baseline; this holds for every magnitude function. -/
theorem Magnitude.magHandleMotion_reject (mag3 : ℚ → ℚ → ℚ → ℚ) (w : ℚ) (e : MotionEvent)
    (t : ℚ) (m : Magnitude.MagState) (tPrev : ℚ) (hrun : m.running = true)
    (hlast : m.lastT = some tPrev) (hgate : t - tPrev ≤ 0 ∨ 1/5 < t - tPrev) :
    Magnitude.handleMotion mag3 w e t m = { m with lastT := some t } := by
  obtain ⟨run, lt, sm, vv, pp, la, gg⟩ := m
  cases hrun
  cases hlast
  simp only [Magnitude.handleMotion]
  rw [if_pos trivial, if_pos hgate]

/-- a running one-dimensional handler accepting an event that carries no
usable acceleration reading only records the new baseline. -/
theorem Magnitude.magHandleMotion_accept_none (mag3 : ℚ → ℚ → ℚ → ℚ) (w : ℚ)
    (e : MotionEvent) (t : ℚ) (m : Magnitude.MagState) (tPrev : ℚ)
    (hrun : m.running = true) (hlast : m.lastT = some tPrev)
    (hpos : 0 < t - tPrev) (hle : t - tPrev ≤ 1/5)
    (hd : ∀ g, Integrator.deriveAccel e g = none) :
    Magnitude.handleMotion mag3 w e t m = { m with lastT := some t } := by
  have hgate : ¬(t - tPrev ≤ 0 ∨ 1/5 < t - tPrev) := by
    push_neg
    exact ⟨hpos, hle⟩
  obtain ⟨run, lt, sm, vv, pp, la, gg⟩ := m
  cases hrun
  cases hlast
  simp only [Magnitude.handleMotion]
  rw [if_pos trivial, if_neg hgate, hd]

/-- a running one-dimensional handler with a timestamp baseline accepts any
event whose spacing lies in (0, 0.2], branching on the derived acceleration;
this holds for every magnitude function. -/
theorem Magnitude.magHandleMotion_accept (mag3 : ℚ → ℚ → ℚ → ℚ) (w : ℚ)
    (e : MotionEvent) (t : ℚ) (m : Magnitude.MagState) (tPrev : ℚ)
    (hrun : m.running = true) (hlast : m.lastT = some tPrev)
    (hpos : 0 < t - tPrev) (hle : t - tPrev ≤ 1/5) :
    Magnitude.handleMotion mag3 w e t m =
      match Integrator.deriveAccel e m.gLP with
      | none => { m with lastT := some t }
      | some (a, g) =>
        Magnitude.integrateAccepted mag3 w t (t - tPrev) a g { m with lastT := some t } := by
  have hgate : ¬(t - tPrev ≤ 0 ∨ 1/5 < t - tPrev) := by
    push_neg
    exact ⟨hpos, hle⟩
  obtain ⟨run, lt, sm, vv, pp, la, gg⟩ := m
  cases hrun
  cases hlast
  simp only [Magnitude.handleMotion]
  rw [if_pos trivial, if_neg hgate]

/-- dropping a prefix of too-old samples from a timestamp-sorted list leaves
only samples at or above the age bound; `f` reads the timestamp out of a
buffer record. -/
theorem dropWhile_age_bound {α : Type} (f : α → ℚ) (bound : ℚ) :
    ∀ l : List α, l.Pairwise (fun a b => f a ≤ f b) →
      ∀ s ∈ l.dropWhile (fun x => decide (f x < bound)), bound ≤ f s := by
  intro l
  induction l with
  | nil =>
    intro _ s hs
    simp [List.dropWhile] at hs
  | cons a l ih =>
    intro hp s hs
    rw [List.dropWhile_cons] at hs
    by_cases h : f a < bound
    · simp [h] at hs
      exact ih (List.Pairwise.of_cons hp) s hs
    · simp [h] at hs
      rcases hs with rfl | hs'
      · exact not_lt.mp h
      · exact le_trans (not_lt.mp h) ((List.pairwise_cons.mp hp).1 s hs')

/-- the element appended at the back survives a front-trimming pass whenever
the predicate does not hold of it. -/
theorem mem_dropWhile_concat {α : Type} (p : α → Bool) (x : α)
    (hx : p x = false) : ∀ l : List α, x ∈ (l ++ [x]).dropWhile p := by
  intro l
  induction l with
  | nil =>
    simp [List.dropWhile, hx]
  | cons a l ih =>
    rw [List.cons_append, List.dropWhile_cons]
    by_cases h : p a = true
    · rw [if_pos h]
      exact ih
    · rw [if_neg h]
      simp

/-! Claim theorems. -/

/-- Claim C1, counterexample: the capture handler takes the absolute value of
the selected component before it clips into [0, 50], so a raw value of -75 is
appended as 50, not 0 as the claim orders the steps' outcomes. -/
theorem C1_counterexample :
    Analytic.captureSampleValue Analytic.Axis.x { x := some (-75), y := none, z := none } ≠ 0 ∧
    Analytic.captureSampleValue Analytic.Axis.x { x := some (-75), y := none, z := none } = 50 ∧
    Analytic.captureStep Analytic.Axis.x
      { acceleration := none,
        accelerationIncludingGravity := some { x := some (-75), y := none, z := none } } []
      = [50] := by
  norm_num [Analytic.captureSampleValue, Analytic.axisComponent, Analytic.clamp,
    Analytic.captureStep, Analytic.eventReading, Option.orElse]

/-- Claim C1 (amended): in the analytic simulator's capture phase, for every
motion event carrying a reading, the value appended to the capture list is the
selected axis component taken through absolute value and then the clip into
[0, 50], which equals min |raw| 50; hence a raw value of -75 clips to 50 (not
0) and a raw value of 75 clips to 50. -/
theorem C1_abs_then_clip (axis : Analytic.Axis) (ev : MotionEvent) (a : MotionReading)
    (samples : List ℚ) (h : Analytic.eventReading ev = some a) :
    Analytic.captureStep axis ev samples
      = samples ++ [Analytic.clamp |Analytic.axisComponent axis a| 0 50] ∧
    Analytic.clamp |Analytic.axisComponent axis a| 0 50
      = min |Analytic.axisComponent axis a| 50 ∧
    Analytic.captureSampleValue Analytic.Axis.x { x := some (-75), y := none, z := none } = 50 ∧
    Analytic.captureSampleValue Analytic.Axis.x { x := some 75, y := none, z := none } = 50 := by
  refine ⟨by simp [Analytic.captureStep, h, Analytic.captureSampleValue], ?_, ?_, ?_⟩
  · unfold Analytic.clamp
    rw [min_comm]
    exact max_eq_right (le_min (abs_nonneg _) (by norm_num))
  · norm_num [Analytic.captureSampleValue, Analytic.axisComponent, Analytic.clamp]
  · norm_num [Analytic.captureSampleValue, Analytic.axisComponent, Analytic.clamp]

/-- Claim C1, witness: the amended theorem applied at axis x, an event whose
gravity-inclusive reading is (75, null, null), and an empty capture list. -/
theorem C1_witness :
    Analytic.captureStep Analytic.Axis.x
      { acceleration := none,
        accelerationIncludingGravity := some { x := some 75, y := none, z := none } } []
      = [] ++ [Analytic.clamp
          |Analytic.axisComponent Analytic.Axis.x { x := some 75, y := none, z := none }| 0 50] :=
  (C1_abs_then_clip Analytic.Axis.x
    { acceleration := none,
      accelerationIncludingGravity := some { x := some 75, y := none, z := none } }
    { x := some 75, y := none, z := none } []
    (by simp [Analytic.eventReading, Option.orElse])).1

/-- Claim C2, counterexample: on a platform with no motion-sensing capability
at all, the three-axis integrator's permission request resolves to granted
(true), not a denial, and its start action attaches the motion listener — the
claimed short-circuit denial holds only for the analytic simulator, not for
every component. -/
theorem C2_counterexample :
    Integrator.requestMotionPermissionIfNeeded
      { deviceMotion := none, deviceOrientation := none } = true ∧
    (Integrator.startAction { deviceMotion := none, deviceOrientation := none } false).attachedListener
      = true ∧
    (Integrator.startAction { deviceMotion := none, deviceOrientation := none } false).status
      = "running" := by
  refine ⟨rfl, ?_, ?_⟩ <;>
    simp [Integrator.startAction, Integrator.requestMotionPermissionIfNeeded]

/-- Claim C2 (amended): only the analytic simulator short-circuits: when the
platform exposes neither a motion nor an orientation capability, its
permission request denies with reason "Sensor unsupported" and its start
action stays in WAIT without subscribing; the integrator components instead
treat a missing DeviceMotionEvent as granted and their start action runs and
subscribes. -/
theorem C2_unsupported_short_circuit (pf : Platform) (hm : pf.deviceMotion = none)
    (ho : pf.deviceOrientation = none) :
    Analytic.requestMotionPermissionIfNeeded pf
      = { ok := false, reason := "Sensor unsupported" } ∧
    Analytic.startAction pf = (Analytic.SimState.WAIT, false) ∧
    Integrator.requestMotionPermissionIfNeeded pf = true ∧
    (∀ att : Bool, (Integrator.startAction pf att).running = true) := by
  have h1 : Analytic.requestMotionPermissionIfNeeded pf
      = { ok := false, reason := "Sensor unsupported" } := by
    simp [Analytic.requestMotionPermissionIfNeeded, hm, ho]
  have h3 : Integrator.requestMotionPermissionIfNeeded pf = true := by
    simp [Integrator.requestMotionPermissionIfNeeded, hm]
  refine ⟨h1, ?_, h3, fun att => ?_⟩
  · simp [Analytic.startAction, h1]
  · simp [Integrator.startAction, h3]

/-- Claim C2, witness: the amended theorem applied at the platform exposing
neither capability. -/
theorem C2_witness :
    Analytic.requestMotionPermissionIfNeeded { deviceMotion := none, deviceOrientation := none }
      = { ok := false, reason := "Sensor unsupported" } ∧
    Analytic.startAction { deviceMotion := none, deviceOrientation := none }
      = (Analytic.SimState.WAIT, false) ∧
    Integrator.requestMotionPermissionIfNeeded { deviceMotion := none, deviceOrientation := none }
      = true ∧
    (∀ att : Bool,
      (Integrator.startAction { deviceMotion := none, deviceOrientation := none } att).running
        = true) :=
  C2_unsupported_short_circuit { deviceMotion := none, deviceOrientation := none } rfl rfl

/-- Claim C6: the analytic simulator's kinematics equals the closed-form
equations velocity(t) = v0 + a0 t and position(t) = x0 + v0 t + a0 t^2 / 2 at
every input, and at a0 = 2, v0 = 0, x0 = 0, t = 3 it yields velocity 6 and
position 9. -/
theorem C6_kinematics_closed_form :
    (∀ t a0 x0 v0 : ℚ,
      (Analytic.kinematics t a0 x0 v0).v = closedFormVelocity t a0 v0 ∧
      (Analytic.kinematics t a0 x0 v0).x = closedFormPosition t a0 x0 v0) ∧
    (Analytic.kinematics 3 2 0 0).v = 6 ∧ (Analytic.kinematics 3 2 0 0).x = 9 := by
  refine ⟨fun t a0 x0 v0 => ⟨rfl, ?_⟩, by norm_num [Analytic.kinematics],
    by norm_num [Analytic.kinematics]⟩
  simp only [Analytic.kinematics, closedFormPosition]
  ring

/-- Claim C7: the constant acceleration stored when the capture window closes
is the arithmetic mean of the captured magnitudes times the gain — samples
[1, 2, 3] with gain 2 give 4 — and an empty capture (non-finite mean) is
replaced by 0. -/
theorem C7_capture_mean_gain :
    (∀ (gain : ℚ) (samples : List ℚ),
      Analytic.captureFinishA0 gain samples =
        if samples.length = 0 then 0 else gain * (samples.sum / samples.length)) ∧
    Analytic.captureFinishA0 2 [1, 2, 3] = 4 ∧
    (∀ gain : ℚ, Analytic.captureFinishA0 gain [] = 0) := by
  refine ⟨fun gain samples => ?_,
    by norm_num [Analytic.captureFinishA0, Analytic.mean],
    fun gain => by norm_num [Analytic.captureFinishA0, Analytic.mean]⟩
  cases samples with
  | nil => simp [Analytic.captureFinishA0, Analytic.mean]
  | cons a l => simp [Analytic.captureFinishA0, Analytic.mean]

/-- Claim C10: a gain field whose text parses to the number 0 falls back to
1.0 (the fallback fires on any falsy parse, 0 and NaN alike), the effective
gain is never 0, and a nonzero capture mean can never be forced to a zero a0
through the gain control. -/
theorem C10_gain_never_zero :
    Analytic.effectiveGain (some 0) = 1 ∧
    Analytic.effectiveGain none = 1 ∧
    (∀ parsed : Option ℚ, Analytic.effectiveGain parsed ≠ 0) ∧
    (∀ (parsed : Option ℚ) (samples : List ℚ) (m : ℚ),
      Analytic.mean samples = some m → m ≠ 0 →
      Analytic.captureFinishA0 (Analytic.effectiveGain parsed) samples ≠ 0) := by
  have hg : ∀ parsed : Option ℚ, Analytic.effectiveGain parsed ≠ 0 := by
    intro parsed
    cases parsed with
    | none => norm_num [Analytic.effectiveGain]
    | some q =>
      by_cases h : q = 0 <;> simp [Analytic.effectiveGain, h]
  refine ⟨rfl, rfl, hg, fun parsed samples m hm hm0 => ?_⟩
  simp only [Analytic.captureFinishA0, hm]
  exact mul_ne_zero (hg parsed) hm0

/-- Claim C10, witness: the theorem applied at a parse result of 0 and the
one-sample capture list [3]. -/
theorem C10_witness :
    Analytic.captureFinishA0 (Analytic.effectiveGain (some 0)) [3] ≠ 0 :=
  C10_gain_never_zero.2.2.2 (some 0) [3] 3 (by norm_num [Analytic.mean]) (by norm_num)

/-- Claim C3, counterexample: an event accepted by the dt check (spacing 0.1 s)
that carries neither acceleration reading does leave velocity, position and
the buffer alone, but the previous-timestamp baseline is NOT left unchanged —
it moves from 0 to 0.1, because the handler records the new timestamp before
it inspects the acceleration fields. -/
theorem C3_counterexample :
    baseIntegratorState.running = true ∧
    baseIntegratorState.lastT = some 0 ∧
    (0 : ℚ) < 1/10 - 0 ∧ (1/10 : ℚ) - 0 ≤ 1/5 ∧
    Integrator.hasReading emptyEvent.acceleration = false ∧
    Integrator.hasReading emptyEvent.accelerationIncludingGravity = false ∧
    (Integrator.handleMotion 10 emptyEvent (1/10) baseIntegratorState).lastT
      ≠ baseIntegratorState.lastT := by
  refine ⟨rfl, rfl, by norm_num, by norm_num, rfl, rfl, ?_⟩
  norm_num [Integrator.handleMotion, Integrator.deriveAccel, Integrator.hasReading,
    baseIntegratorState, emptyEvent]

/-- Claim C3 (amended): in the integrator components, an event accepted by the
dt check that carries neither a gravity-free nor a gravity-inclusive reading
leaves velocity, position, lastAcceleration, the gravity estimate and the
sample buffer unchanged, but updates the previous-timestamp baseline to the
event's timestamp; this holds for the three-axis handler and, for every
magnitude function, for the one-dimensional handler. -/
theorem C3_no_reading_updates_baseline_only (w : ℚ) (e : MotionEvent) (t : ℚ)
    (s : Integrator.IntegratorState) (tPrev : ℚ)
    (hrun : s.running = true) (hlast : s.lastT = some tPrev)
    (hpos : 0 < t - tPrev) (hle : t - tPrev ≤ 1/5)
    (hna : Integrator.hasReading e.acceleration = false)
    (hng : Integrator.hasReading e.accelerationIncludingGravity = false) :
    Integrator.handleMotion w e t s = { s with lastT := some t } ∧
    (∀ (mag3 : ℚ → ℚ → ℚ → ℚ) (m : Magnitude.MagState),
      m.running = true → m.lastT = some tPrev →
      Magnitude.handleMotion mag3 w e t m = { m with lastT := some t }) := by
  have hd : ∀ g : Vec3, Integrator.deriveAccel e g = none := fun g => by
    simp [Integrator.deriveAccel, hna, hng]
  constructor
  · rw [Integrator.intHandleMotion_accept w e t s tPrev hrun hlast hpos hle, hd]
  · intro mag3 m hmrun hmlast
    exact Magnitude.magHandleMotion_accept_none mag3 w e t m tPrev hmrun hmlast hpos hle hd

/-- Claim C3, witness: the amended theorem applied at spacing 0.1 s and the
event with no acceleration fields. -/
theorem C3_witness :
    Integrator.handleMotion 10 emptyEvent (1/10) baseIntegratorState
      = { baseIntegratorState with lastT := some (1/10) } ∧
    Magnitude.handleMotion (fun x _ _ => x) 10 emptyEvent (1/10) baseMagState
      = { baseMagState with lastT := some (1/10) } :=
  ⟨(C3_no_reading_updates_baseline_only 10 emptyEvent (1/10) baseIntegratorState 0
      rfl rfl (by norm_num) (by norm_num) rfl rfl).1,
   (C3_no_reading_updates_baseline_only 10 emptyEvent (1/10) baseIntegratorState 0
      rfl rfl (by norm_num) (by norm_num) rfl rfl).2
     (fun x _ _ => x) baseMagState rfl rfl⟩

/-- Claim C4: in the integrator components, an event with a valid previous
timestamp is integrated exactly when 0 < dt ≤ 0.2: outside that range each
handler changes nothing except recording the new timestamp as the next
baseline, and inside it each handler proceeds to its integration branch; both
the rejection and the acceptance behaviour hold for the one-dimensional
handler under every magnitude function. -/
theorem C4_dt_gate (w : ℚ) (e : MotionEvent) (t : ℚ)
    (s : Integrator.IntegratorState) (tPrev : ℚ)
    (hrun : s.running = true) (hlast : s.lastT = some tPrev) :
    ((t - tPrev ≤ 0 ∨ 1/5 < t - tPrev) →
      Integrator.handleMotion w e t s = { s with lastT := some t }) ∧
    (0 < t - tPrev → t - tPrev ≤ 1/5 →
      Integrator.handleMotion w e t s =
        match Integrator.deriveAccel e s.gLP with
        | none => { s with lastT := some t }
        | some (a, g) =>
          Integrator.integrateAccepted w t (t - tPrev) a g { s with lastT := some t }) ∧
    (∀ (mag3 : ℚ → ℚ → ℚ → ℚ) (m : Magnitude.MagState),
      m.running = true → m.lastT = some tPrev →
      (t - tPrev ≤ 0 ∨ 1/5 < t - tPrev) →
      Magnitude.handleMotion mag3 w e t m = { m with lastT := some t }) ∧
    (∀ (mag3 : ℚ → ℚ → ℚ → ℚ) (m : Magnitude.MagState),
      m.running = true → m.lastT = some tPrev →
      0 < t - tPrev → t - tPrev ≤ 1/5 →
      Magnitude.handleMotion mag3 w e t m =
        match Integrator.deriveAccel e m.gLP with
        | none => { m with lastT := some t }
        | some (a, g) =>
          Magnitude.integrateAccepted mag3 w t (t - tPrev) a g { m with lastT := some t }) :=
  ⟨fun hgate => Integrator.intHandleMotion_reject w e t s tPrev hrun hlast hgate,
   fun hpos hle => Integrator.intHandleMotion_accept w e t s tPrev hrun hlast hpos hle,
   fun mag3 m hmrun hmlast hgate =>
     Magnitude.magHandleMotion_reject mag3 w e t m tPrev hmrun hmlast hgate,
   fun mag3 m hmrun hmlast hpos hle =>
     Magnitude.magHandleMotion_accept mag3 w e t m tPrev hmrun hmlast hpos hle⟩

/-- Claim C4, witness: a spacing of exactly 0.2 s is accepted by both
handlers (each reaches its integration branch), while a spacing of 0.20001 s
is rejected by both, changing only the recorded baseline. -/
theorem C4_witness :
    (Integrator.handleMotion 10 fullReadingEvent (20001/100000) baseIntegratorState
      = { baseIntegratorState with lastT := some (20001/100000) }) ∧
    (Integrator.handleMotion 10 fullReadingEvent (1/5) baseIntegratorState
      = match Integrator.deriveAccel fullReadingEvent baseIntegratorState.gLP with
        | none => { baseIntegratorState with lastT := some (1/5) }
        | some (a, g) =>
          Integrator.integrateAccepted 10 (1/5) (1/5 - 0) a g
            { baseIntegratorState with lastT := some (1/5) }) ∧
    (Magnitude.handleMotion (fun x _ _ => x) 10 fullReadingEvent (20001/100000) baseMagState
      = { baseMagState with lastT := some (20001/100000) }) ∧
    (Magnitude.handleMotion (fun x _ _ => x) 10 fullReadingEvent (1/5) baseMagState
      = match Integrator.deriveAccel fullReadingEvent baseMagState.gLP with
        | none => { baseMagState with lastT := some (1/5) }
        | some (a, g) =>
          Magnitude.integrateAccepted (fun x _ _ => x) 10 (1/5) (1/5 - 0) a g
            { baseMagState with lastT := some (1/5) }) :=
  ⟨(C4_dt_gate 10 fullReadingEvent (20001/100000) baseIntegratorState 0 rfl rfl).1
      (by norm_num),
   (C4_dt_gate 10 fullReadingEvent (1/5) baseIntegratorState 0 rfl rfl).2.1
      (by norm_num) (by norm_num),
   (C4_dt_gate 10 fullReadingEvent (20001/100000) baseIntegratorState 0 rfl rfl).2.2.1
      (fun x _ _ => x) baseMagState rfl rfl (by norm_num),
   (C4_dt_gate 10 fullReadingEvent (1/5) baseIntegratorState 0 rfl rfl).2.2.2
      (fun x _ _ => x) baseMagState rfl rfl (by norm_num) (by norm_num)⟩

/-- Claim C5: in the three-axis integrator, an accepted event updates, per
axis, velocity by 0.5 * (lastAcceleration + acceleration) * dt, then position
by velocity * dt, then sets lastAcceleration to the new acceleration; starting
from zero velocity with lastAcceleration already equal to the event's
acceleration, the resulting velocity is exactly acceleration * dt per axis. -/
theorem C5_trapezoid_update (w : ℚ) (e : MotionEvent) (t : ℚ)
    (s : Integrator.IntegratorState) (tPrev : ℚ) (a g : Vec3)
    (hrun : s.running = true) (hlast : s.lastT = some tPrev)
    (hpos : 0 < t - tPrev) (hle : t - tPrev ≤ 1/5)
    (hacc : Integrator.deriveAccel e s.gLP = some (a, g)) :
    ((Integrator.handleMotion w e t s).v =
      { x := s.v.x + 1/2 * (s.lastA.x + a.x) * (t - tPrev),
        y := s.v.y + 1/2 * (s.lastA.y + a.y) * (t - tPrev),
        z := s.v.z + 1/2 * (s.lastA.z + a.z) * (t - tPrev) } ∧
     (Integrator.handleMotion w e t s).p =
      { x := s.p.x + (Integrator.handleMotion w e t s).v.x * (t - tPrev),
        y := s.p.y + (Integrator.handleMotion w e t s).v.y * (t - tPrev),
        z := s.p.z + (Integrator.handleMotion w e t s).v.z * (t - tPrev) } ∧
     (Integrator.handleMotion w e t s).lastA = a) ∧
    (s.v = { x := 0, y := 0, z := 0 } → s.lastA = a →
      (Integrator.handleMotion w e t s).v =
        { x := a.x * (t - tPrev), y := a.y * (t - tPrev), z := a.z * (t - tPrev) }) := by
  have h := Integrator.intHandleMotion_accept w e t s tPrev hrun hlast hpos hle
  rw [hacc] at h
  constructor
  · rw [h]
    exact ⟨rfl, rfl, rfl⟩
  · intro hv ha
    rw [h]
    simp only [Integrator.integrateAccepted, hv, ha, Vec3.mk.injEq]
    refine ⟨by ring, by ring, by ring⟩

/-- Claim C5, witness: the theorem applied at spacing 0.1 s, an event reading
(1, 2, 3), and a state with zero velocity whose lastAcceleration is already
(1, 2, 3), yielding velocity (0.1, 0.2, 0.3). -/
theorem C5_witness :
    (Integrator.handleMotion 10 fullReadingEvent (1/10) trapState).lastA = ⟨1, 2, 3⟩ ∧
    (Integrator.handleMotion 10 fullReadingEvent (1/10) trapState).v =
      { x := 1 * (1/10 - 0), y := 2 * (1/10 - 0), z := 3 * (1/10 - 0) } :=
  ⟨(C5_trapezoid_update 10 fullReadingEvent (1/10) trapState 0 ⟨1, 2, 3⟩ ⟨0, 0, 0⟩
      rfl rfl (by norm_num) (by norm_num) rfl).1.2.2,
   (C5_trapezoid_update 10 fullReadingEvent (1/10) trapState 0 ⟨1, 2, 3⟩ ⟨0, 0, 0⟩
      rfl rfl (by norm_num) (by norm_num) rfl).2 rfl rfl⟩

/-- Claim C8: a Stop action issued in WAIT leaves the simulator record fully
unchanged, and a Stop issued in CAPTURING removes the capture subscription
and moves to STOPPED while leaving a0 unchanged (no constant acceleration is
computed from the partial samples). -/
theorem C8_stop_wait_capturing (now : ℚ) (s : Analytic.Sim) :
    (s.state = Analytic.SimState.WAIT → Analytic.stopAction now s = s) ∧
    (s.state = Analytic.SimState.CAPTURING →
      Analytic.stopAction now s =
        { s with listening := false, state := Analytic.SimState.STOPPED } ∧
      (Analytic.stopAction now s).a0 = s.a0 ∧
      (Analytic.stopAction now s).listening = false) := by
  constructor
  · intro h
    simp [Analytic.stopAction, h]
  · intro h
    simp [Analytic.stopAction, h]

/-- Claim C8, witness: the theorem applied at a concrete WAIT record and a
concrete CAPTURING record with a listener attached. -/
theorem C8_witness :
    Analytic.stopAction 9 simWait = simWait ∧
    (Analytic.stopAction 9 simCapturing =
      { simCapturing with listening := false, state := Analytic.SimState.STOPPED } ∧
     (Analytic.stopAction 9 simCapturing).a0 = simCapturing.a0 ∧
     (Analytic.stopAction 9 simCapturing).listening = false) :=
  ⟨(C8_stop_wait_capturing 9 simWait).1 rfl,
   (C8_stop_wait_capturing 9 simCapturing).2 rfl⟩

/-- Claim C9: the integrator components' rolling buffers keep timestamps in
non-decreasing order across append-and-trim, the appended newest sample is
retained, and every retained sample's timestamp is at least the newest
timestamp minus the window minus the 0.5 s slack; this holds for the
three-axis buffer and for the one-dimensional buffer. -/
theorem C9_rolling_buffer (w tF : ℚ) (buf : List Integrator.Sample)
    (new : Integrator.Sample) (hw : 0 ≤ w)
    (hsorted : (buf ++ [new]).Pairwise (fun a b => a.t ≤ b.t)) :
    ((Integrator.clampWindow w tF (buf ++ [new])).Pairwise (fun a b => a.t ≤ b.t) ∧
     new ∈ Integrator.clampWindow w tF (buf ++ [new]) ∧
     ∀ s ∈ Integrator.clampWindow w tF (buf ++ [new]), new.t - w - 1/2 ≤ s.t) ∧
    (∀ (mbuf : List Magnitude.Sample) (mnew : Magnitude.Sample),
      (mbuf ++ [mnew]).Pairwise (fun a b => a.t ≤ b.t) →
      (Magnitude.clampWindow w tF (mbuf ++ [mnew])).Pairwise (fun a b => a.t ≤ b.t) ∧
      mnew ∈ Magnitude.clampWindow w tF (mbuf ++ [mnew]) ∧
      ∀ s ∈ Magnitude.clampWindow w tF (mbuf ++ [mnew]), mnew.t - w - 1/2 ≤ s.t) := by
  constructor
  · have hcw : Integrator.clampWindow w tF (buf ++ [new])
        = (buf ++ [new]).dropWhile (fun s => decide (s.t < new.t - w - 1/2)) := by
      simp [Integrator.clampWindow, List.getLast?_concat]
    rw [hcw]
    refine ⟨List.Pairwise.sublist (List.dropWhile_sublist _) hsorted, ?_, ?_⟩
    · refine mem_dropWhile_concat _ new ?_ buf
      simp only [decide_eq_false_iff_not, not_lt]
      linarith
    · intro s hs
      exact dropWhile_age_bound Integrator.Sample.t (new.t - w - 1/2) (buf ++ [new])
        hsorted s hs
  · intro mbuf mnew hmsorted
    have hcw : Magnitude.clampWindow w tF (mbuf ++ [mnew])
        = (mbuf ++ [mnew]).dropWhile (fun s => decide (s.t < mnew.t - w - 1/2)) := by
      simp [Magnitude.clampWindow, List.getLast?_concat]
    rw [hcw]
    refine ⟨List.Pairwise.sublist (List.dropWhile_sublist _) hmsorted, ?_, ?_⟩
    · refine mem_dropWhile_concat _ mnew ?_ mbuf
      simp only [decide_eq_false_iff_not, not_lt]
      linarith
    · intro s hs
      exact dropWhile_age_bound Magnitude.Sample.t (mnew.t - w - 1/2) (mbuf ++ [mnew])
        hmsorted s hs

/-- Claim C9, witness: the theorem applied at window 1 and sorted two-sample
buffers (timestamps 0 and 2) for both the three-axis and the one-dimensional
buffer. -/
theorem C9_witness :
    ((Integrator.clampWindow 1 0 ([sampA] ++ [sampB])).Pairwise (fun a b => a.t ≤ b.t) ∧
     sampB ∈ Integrator.clampWindow 1 0 ([sampA] ++ [sampB]) ∧
     ∀ s ∈ Integrator.clampWindow 1 0 ([sampA] ++ [sampB]), sampB.t - 1 - 1/2 ≤ s.t) ∧
    ((Magnitude.clampWindow 1 0 ([msampA] ++ [msampB])).Pairwise (fun a b => a.t ≤ b.t) ∧
     msampB ∈ Magnitude.clampWindow 1 0 ([msampA] ++ [msampB]) ∧
     ∀ s ∈ Magnitude.clampWindow 1 0 ([msampA] ++ [msampB]), msampB.t - 1 - 1/2 ≤ s.t) :=
  ⟨(C9_rolling_buffer 1 0 [sampA] sampB (by norm_num)
      (by norm_num [List.pairwise_cons, sampA, sampB])).1,
   (C9_rolling_buffer 1 0 [sampA] sampB (by norm_num)
      (by norm_num [List.pairwise_cons, sampA, sampB])).2 [msampA] msampB
      (by norm_num [List.pairwise_cons, msampA, msampB])⟩
